import Mathlib

/-!
Verification development for the sysmon telemetry collector
(`scripts/sysmon-update.py`).

The script collects data from three sources — a Pi-hole HTTP API
(`get_pihole_stats`), local OS metrics (`get_server_stats`), and the Docker
container table (`get_docker_containers`) — and `main` merges the three
results into one JSON snapshot written to an output file.

The embedding below is shallow: every external call (HTTP request, library
call, pseudo-file read, subprocess invocation) is represented by an
environment field of type `Except String v`, where `Except.error m`
stands for the Python call raising an exception with message `m`.
Python dictionaries are association lists preserving insertion order, and
JSON leaf values are the inductive `JVal`.
-/

/-- A JSON-ish leaf value as produced by the collector: an integer, a
(rounded) decimal number modelled as a rational, or a string. -/
inductive JVal where
  | jint (n : Int)
  | jnum (q : ℚ)
  | jstr (s : String)
deriving DecidableEq, Repr

/-- One entry of the `containers` list, mirroring the Python dict
`{"name": ..., "status": ..., "running": ...}` built in
`get_docker_containers`. -/
structure Container where
  name : String
  status : String
  running : Bool
deriving DecidableEq, Repr

/-- Lexicographic comparison of character lists by code point; this is the
comparison Python applies to the `name` component of the sort key in
`sorted(containers, key=lambda x: (not x["running"], x["name"]))`. -/
def lexLe : List Char → List Char → Bool
  | [], _ => true
  | _ :: _, [] => false
  | c :: cs, d :: ds => if c = d then lexLe cs ds else decide (c < d)

/-- Python `<=` on strings: lexicographic on the character sequences. -/
def strLe (a b : String) : Bool := lexLe a.data b.data

/-- `listStartsWith a b` holds when list `a` begins with list `b`
(Python's `str.startswith` on the underlying characters). -/
def listStartsWith : List Char → List Char → Bool
  | _, [] => true
  | [], _ :: _ => false
  | c :: cs, d :: ds => decide (c = d) && listStartsWith cs ds

/-- `status.lower().startswith("up")` from `get_docker_containers`
(line 167 of the script). -/
def statusRunning (status : String) : Bool :=
  listStartsWith (status.data.map Char.toLower) "up".data

/-- Build one `Container` from a parsed `(name, status-text)` entry:
classification and display shortening from lines 167-173 of the script. -/
def containerOfEntry (p : String × String) : Container :=
  let running := statusRunning p.2
  { name := p.1, status := if running then "UP" else "DOWN", running := running }

/-- The Boolean rendering of Python's sort key comparison
`(not x["running"], x["name"]) <= (not y["running"], y["name"])`:
with `False < True`, entries with equal `running` compare by name, and a
running entry (key component `False`) sorts before a stopped one. -/
def contLe (a b : Container) : Bool :=
  if a.running = b.running then strLe a.name b.name else a.running

/-- `contLe` as a decidable relation, for `List.insertionSort`. -/
def contRel (a b : Container) : Prop := contLe a b = true

instance : DecidableRel contRel := fun a b => inferInstanceAs (Decidable (contLe a b = true))

/-- `sorted(containers, key=lambda x: (not x["running"], x["name"]))`
(line 174): Python's sort is stable, and a stable sort by a total preorder
is unique, so the stable `insertionSort` is an exact model. -/
def sortContainers (l : List Container) : List Container :=
  List.insertionSort contRel l

/-- The external behaviour of the `docker ps -a` invocation plus line
splitting: either the parsed `(name, status-text)` entries, or
`Except.error m` when the subprocess raises (runtime absent, timeout,
non-zero exit) with exception message `m`. -/
abbrev DockerEnv := Except String (List (String × String))

/-- `get_docker_containers` (lines 153-176): on success, classify and sort
the parsed entries; on any invocation failure return the single synthetic
entry `{"name": "docker error", "status": str(e), "running": False}`. -/
def get_docker_containers (denv : DockerEnv) : List Container :=
  match denv with
  | Except.ok entries => sortContainers (entries.map containerOfEntry)
  | Except.error e => [{ name := "docker error", status := e, running := false }]

/-- Python's `round` to an integer: round-half-to-even (banker's rounding),
here on exact rationals. -/
def roundHalfEven (q : ℚ) : ℤ :=
  if q - ⌊q⌋ < 1 / 2 then ⌊q⌋
  else if q - ⌊q⌋ > 1 / 2 then ⌊q⌋ + 1
  else if ⌊q⌋ % 2 = 0 then ⌊q⌋ else ⌊q⌋ + 1

/-- Python `round(q, nd)`: round half to even at `nd` decimal places. -/
def pyRound (q : ℚ) (nd : Nat) : ℚ :=
  ((roundHalfEven (q * 10 ^ nd) : ℚ)) / 10 ^ nd

/-- `round(q, 1)`. -/
def round1 (q : ℚ) : ℚ := pyRound q 1

/-- `round(q, 2)`. -/
def round2 (q : ℚ) : ℚ := pyRound q 2

/-- Outcome of the login step of `get_pihole_stats` (lines 59-61):
the POST itself can raise (transport), `raise_for_status` can raise
(non-2xx), the extraction `r.json()["session"]["sid"]` can raise
(missing token), or a session id string is obtained. -/
inductive LoginOutcome where
  | transportError (m : String)
  | httpError (m : String)
  | parseError (m : String)
  | ok (sid : String)
deriving DecidableEq, Repr

/-- The message of the exception raised by a failing login step, if any. -/
def loginFailMsg : LoginOutcome → Option String
  | LoginOutcome.transportError m => some m
  | LoginOutcome.httpError m => some m
  | LoginOutcome.parseError m => some m
  | LoginOutcome.ok _ => none

/-- The fields of the summary response body that lines 63-79 read with
`.get(..., default)`: `none` models a field (or its whole enclosing
object) missing from the response. -/
structure SummaryBody where
  queries_total : Option Int
  queries_blocked : Option Int
  queries_percent_blocked : Option ℚ
  gravity_domains_being_blocked : Option Int
  queries_forwarded : Option Int
  queries_cached : Option Int
  clients_active : Option Int
deriving DecidableEq, Repr

/-- External behaviour of everything `get_pihole_stats` calls: whether the
`requests` library imported, the outcome of the login POST, of the summary
GET (`Except.error m` covers both transport failures and `.json()` parse
failures), and of the logout DELETE. -/
structure PiholeEnv where
  hasRequests : Bool
  login : LoginOutcome
  summary : Except String SummaryBody
  logout : Except String Unit
deriving Repr

/-- The success dictionary built at lines 71-79, with `get`-defaults of
`0` (and `0.0` for the rounded percentage) for missing fields. -/
def statsOf (s : SummaryBody) : List (String × JVal) :=
  [("queries_today", JVal.jint (s.queries_total.getD 0)),
   ("ads_blocked_today", JVal.jint (s.queries_blocked.getD 0)),
   ("ads_percentage_today", JVal.jnum (round2 (s.queries_percent_blocked.getD 0))),
   ("domains_being_blocked", JVal.jint (s.gravity_domains_being_blocked.getD 0)),
   ("queries_forwarded", JVal.jint (s.queries_forwarded.getD 0)),
   ("queries_cached", JVal.jint (s.queries_cached.getD 0)),
   ("unique_clients", JVal.jint (s.clients_active.getD 0))]

/-- `get_pihole_stats` (lines 49-90). Returns the dictionary the Python
function returns, paired with the number of logout DELETE requests
attempted by the `finally` block. The `finally` block runs on every exit
path and issues the DELETE iff `sid` is truthy (a non-empty string was
extracted); the DELETE is wrapped in `try/except: pass`, so `env.logout`
never influences the returned dictionary. -/
def get_pihole_stats (env : PiholeEnv) : List (String × JVal) × Nat :=
  if env.hasRequests = false then ([], 0)
  else
    match env.login with
    | LoginOutcome.transportError m => ([("error", JVal.jstr m)], 0)
    | LoginOutcome.httpError m => ([("error", JVal.jstr m)], 0)
    | LoginOutcome.parseError m => ([("error", JVal.jstr m)], 0)
    | LoginOutcome.ok sid =>
      let attempts : Nat := if sid = "" then 0 else 1
      match env.summary with
      | Except.error m => ([("error", JVal.jstr m)], attempts)
      | Except.ok body => (statsOf body, attempts)

/-- Replace only the logout behaviour of an environment (used to state
that the returned dictionary is independent of the logout outcome). -/
def withLogout (env : PiholeEnv) (lo : Except String Unit) : PiholeEnv :=
  { env with logout := lo }

/-- `psutil.virtual_memory()` result fields read at lines 99-102. -/
structure VMStat where
  percent : ℚ
  used : Int
  total : Int
deriving DecidableEq, Repr

/-- `psutil.disk_usage("/")` result fields read at lines 103-106. -/
structure DUStat where
  percent : ℚ
  used : Int
  total : Int
deriving DecidableEq, Repr

/-- External behaviour of everything `get_server_stats` touches. Each
psutil call of the rich path may raise (`Except.error`); `uptimeSecs`
combines `boot_time()` with the current clock into whole seconds of
uptime. The fallback fields model the two pseudo-file read-and-parse
steps, and `thermal zone = some m` models the file
`/sys/class/thermal/thermal_zone{zone}/temp` existing with integer
content `m` (milli-degrees). -/
structure ServerEnv where
  hasPsutil : Bool
  cpu_percent : Except String ℚ
  virtual_memory : Except String VMStat
  disk_usage : Except String DUStat
  getloadavg : Except String (ℚ × ℚ)
  uptimeSecs : Except String Nat
  loadavgFile : Except String (ℚ × ℚ)
  uptimeFile : Except String Nat
  thermal : Nat → Option Int

/-- Uptime formatting of the rich path (lines 112-118): `"{days}d
{hours}h"` when `days > 0`, else `"{hours}h {mins}m"`. -/
def uptimeStrRich (s : Nat) : String :=
  let days := s / 86400
  let hours := s % 86400 / 3600
  let mins := s % 3600 / 60
  if days > 0 then toString days ++ "d " ++ toString hours ++ "h"
  else toString hours ++ "h " ++ toString mins ++ "m"

/-- Uptime formatting of the fallback path (lines 128-133): always
`"{days}d {hours}h"`. -/
def uptimeStrFallback (s : Nat) : String :=
  let days := s / 86400
  let hours := s % 86400 / 3600
  toString days ++ "d " ++ toString hours ++ "h"

/-- Zone `i` holds a reading `m` whose temperature `m / 1000.0` passes the
sanity bound `10 < temp < 120` of line 144. -/
def Qualifies (zones : Nat → Option Int) (i : Nat) : Prop :=
  ∃ m, zones i = some m ∧ 10 < (m : ℚ) / 1000 ∧ (m : ℚ) / 1000 < 120

instance (zones : Nat → Option Int) (i : Nat) : Decidable (Qualifies zones i) := by
  unfold Qualifies
  cases zones i with
  | none => exact Decidable.isFalse (by simp)
  | some m => exact decidable_of_iff (10 < (m : ℚ) / 1000 ∧ (m : ℚ) / 1000 < 120) (by simp)

/-- The thermal-zone loop of lines 138-148, probing indices `k, k+1, ...`
while `fuel` lasts. Returns the temperature `m / 1000` of the first
qualifying zone (`none` when no zone qualifies) together with the list of
zone indices examined (the loop `break`s right after the first hit). -/
def probeAux (zones : Nat → Option Int) (k : Nat) : Nat → Option ℚ × List Nat
  | 0 => (none, [])
  | fuel + 1 =>
    match zones k with
    | some m =>
      if 10 < (m : ℚ) / 1000 ∧ (m : ℚ) / 1000 < 120 then ((some ((m : ℚ) / 1000)), [k])
      else
        let p := probeAux zones (k + 1) fuel
        (p.1, k :: p.2)
    | none =>
      let p := probeAux zones (k + 1) fuel
      (p.1, k :: p.2)

/-- The full probe `for zone in range(10)` of line 139. -/
def probeZones (zones : Nat → Option Int) : Option ℚ × List Nat :=
  probeAux zones 0 10

/-- The `temp_c` entry added at line 145 when a zone qualifies:
`round(temp, 1)` of the selected temperature, else nothing. -/
def tempPart (zones : Nat → Option Int) : List (String × JVal) :=
  match (probeZones zones).1 with
  | some t => [("temp_c", JVal.jnum (round1 t))]
  | none => []

/-- The fallback-path portion of `get_server_stats` (lines 120-135): each
pseudo-file read is wrapped in its own `try/except: pass`, so a failure
merely omits that group of keys. -/
def fallbackStats (env : ServerEnv) : List (String × JVal) :=
  (match env.loadavgFile with
   | Except.ok la => [("load_1", JVal.jnum la.1), ("load_5", JVal.jnum la.2)]
   | Except.error _ => []) ++
  (match env.uptimeFile with
   | Except.ok up => [("uptime_str", JVal.jstr (uptimeStrFallback up))]
   | Except.error _ => [])

/-- `get_server_stats` (lines 93-150). The rich path (lines 97-118) is not
wrapped in any `try`, so an exception from any psutil call propagates out
of the function — hence the `Except` result type. The fallback path and
the thermal probe swallow their failures. -/
def get_server_stats (env : ServerEnv) : Except String (List (String × JVal)) :=
  if env.hasPsutil then do
    let cpu ← env.cpu_percent
    let vm ← env.virtual_memory
    let du ← env.disk_usage
    let la ← env.getloadavg
    let up ← env.uptimeSecs
    Except.ok
      ([("cpu_pct", JVal.jnum (round1 cpu)),
        ("mem_pct", JVal.jnum (round1 vm.percent)),
        ("mem_used", JVal.jint vm.used),
        ("mem_total", JVal.jint vm.total),
        ("disk_pct", JVal.jnum (round1 du.percent)),
        ("disk_used", JVal.jint du.used),
        ("disk_total", JVal.jint du.total),
        ("load_1", JVal.jnum (round2 la.1)),
        ("load_5", JVal.jnum (round2 la.2)),
        ("uptime_str", JVal.jstr (uptimeStrRich up))] ++ tempPart env.thermal)
  else
    Except.ok (fallbackStats env ++ tempPart env.thermal)

/-- A top-level value of the snapshot dictionary built in `main`
(lines 183-188): the timestamp string, a sub-dictionary, or the
containers list. -/
inductive TopVal where
  | str (s : String)
  | obj (kvs : List (String × JVal))
  | arr (cs : List Container)
deriving DecidableEq, Repr

/-- The data-assembly part of `main` (lines 179-191): the snapshot
dictionary with its four keys in literal order. `updated` stands for the
formatted local timestamp. If `get_server_stats` raises, `main` has no
handler, so the error propagates and no snapshot is produced. -/
def mainSnapshot (updated : String) (penv : PiholeEnv) (senv : ServerEnv)
    (denv : DockerEnv) : Except String (List (String × TopVal)) :=
  match get_server_stats senv with
  | Except.error e => Except.error e
  | Except.ok server =>
    Except.ok
      [("updated", TopVal.str updated),
       ("pihole", TopVal.obj (get_pihole_stats penv).1),
       ("server", TopVal.obj server),
       ("containers", TopVal.arr (get_docker_containers denv))]

/-- One step of the publisher's effect on the output file. -/
inductive WriteOp where
  | truncateOpen
  | writeAll (s : String)
deriving DecidableEq, Repr

/-- Effect of one step on the current content of the output path. -/
def applyOp (st : String) : WriteOp → String
  | WriteOp.truncateOpen => ""
  | WriteOp.writeAll s => st ++ s

/-- The contents a concurrent reader of the output path can observe while
a sequence of write steps runs: the content before each step and after
the last. -/
def writeTrace (st : String) : List WriteOp → List String
  | [] => [st]
  | op :: ops => st :: writeTrace (applyOp st op) ops

/-- The write steps of lines 190-191: `open(OUTPUT_FILE, "w")` truncates
the output path in place, then `json.dump` writes the serialized
document `doc` to it. No temporary file and no rename is involved. -/
def publishOps (doc : String) : List WriteOp :=
  [WriteOp.truncateOpen, WriteOp.writeAll doc]

/-- The claim-level ordering of the container list: equal `running` flags
compare by name, and a running container precedes a stopped one (the key
`(not running, name)` with `False < True`). -/
def ContOrder (a b : Container) : Prop :=
  (a.running = b.running ∧ strLe a.name b.name = true) ∨
    (a.running = true ∧ b.running = false)

/-- A summary body with every counter object or field missing. -/
def emptyBody : SummaryBody :=
  { queries_total := none, queries_blocked := none, queries_percent_blocked := none,
    gravity_domains_being_blocked := none, queries_forwarded := none,
    queries_cached := none, clients_active := none }

/-- Environment in which the `requests` import failed. -/
def envNoRequests : PiholeEnv :=
  { hasRequests := false, login := LoginOutcome.ok "x",
    summary := Except.error "unreachable", logout := Except.ok () }

/-- Environment in which the login POST raises a transport error. -/
def envLoginFail : PiholeEnv :=
  { hasRequests := true, login := LoginOutcome.transportError "connection refused",
    summary := Except.error "unreachable", logout := Except.ok () }

/-- Environment in which login succeeds and the summary fetch raises;
the logout DELETE also fails. -/
def envFetchFail : PiholeEnv :=
  { hasRequests := true, login := LoginOutcome.ok "S",
    summary := Except.error "fetch failed", logout := Except.error "logout failed" }

/-- Environment in which login succeeds with an empty-string session id. -/
def envEmptySid : PiholeEnv :=
  { hasRequests := true, login := LoginOutcome.ok "",
    summary := Except.ok emptyBody, logout := Except.ok () }

/-- Environment in which login succeeds and the summary body is empty. -/
def envGoodLogin : PiholeEnv :=
  { hasRequests := true, login := LoginOutcome.ok "S",
    summary := Except.ok emptyBody, logout := Except.ok () }

/-- Server environment: psutil absent and both pseudo-file reads fail. -/
def envFallbackAllFail : ServerEnv :=
  { hasPsutil := false, cpu_percent := Except.error "no psutil",
    virtual_memory := Except.error "no psutil", disk_usage := Except.error "no psutil",
    getloadavg := Except.error "no psutil", uptimeSecs := Except.error "no psutil",
    loadavgFile := Except.error "no such file", uptimeFile := Except.error "no such file",
    thermal := fun _ => none }

/-- Server environment: psutil present but its first call raises. -/
def envCpuFail : ServerEnv :=
  { hasPsutil := true, cpu_percent := Except.error "boom",
    virtual_memory := Except.ok { percent := 0, used := 0, total := 0 },
    disk_usage := Except.ok { percent := 0, used := 0, total := 0 },
    getloadavg := Except.ok (0, 0), uptimeSecs := Except.ok 0,
    loadavgFile := Except.error "x", uptimeFile := Except.error "x",
    thermal := fun _ => none }

/-- Thermal zones 0, 1, 2 report 5000, 45000, 999999 milli-degrees;
zones 3-9 are absent. -/
def zones3 : Nat → Option Int := fun n =>
  if n = 0 then some 5000
  else if n = 1 then some 45000
  else if n = 2 then some 999999
  else none

theorem lexLe_total (a : List Char) : ∀ b, lexLe a b = true ∨ lexLe b a = true := by
  induction a with
  | nil => intro b; left; rfl
  | cons c cs ih =>
    intro b
    cases b with
    | nil => right; rfl
    | cons d ds =>
      by_cases h : c = d
      · subst h
        simpa [lexLe] using ih ds
      · have h' : d ≠ c := fun e => h e.symm
        rcases lt_or_gt_of_ne h with hlt | hgt
        · left; simp [lexLe, h, hlt]
        · right; simp [lexLe, h', hgt]

theorem lexLe_trans :
    ∀ a b c : List Char, lexLe a b = true → lexLe b c = true → lexLe a c = true := by
  intro a
  induction a with
  | nil => intro b c _ _; rfl
  | cons x xs ih =>
    intro b c hab hbc
    cases b with
    | nil => simp [lexLe] at hab
    | cons y ys =>
      cases c with
      | nil => simp [lexLe] at hbc
      | cons z zs =>
        simp only [lexLe] at hab hbc ⊢
        by_cases hxy : x = y
        · subst hxy
          rw [if_pos rfl] at hab
          by_cases hyz : x = z
          · subst hyz
            rw [if_pos rfl] at hbc
            rw [if_pos rfl]
            exact ih ys zs hab hbc
          · rw [if_neg hyz] at hbc
            rw [if_neg hyz]
            exact hbc
        · rw [if_neg hxy] at hab
          have hxy' : x < y := by simpa using hab
          by_cases hyz : y = z
          · subst hyz
            rw [if_neg hxy]
            simpa using hxy'
          · rw [if_neg hyz] at hbc
            have hyz' : y < z := by simpa using hbc
            have hxz : x < z := lt_trans hxy' hyz'
            rw [if_neg (ne_of_lt hxz)]
            simpa using hxz

theorem strLe_total (a b : String) : strLe a b = true ∨ strLe b a = true :=
  lexLe_total a.data b.data

theorem strLe_trans {a b c : String} (h1 : strLe a b = true) (h2 : strLe b c = true) :
    strLe a c = true :=
  lexLe_trans a.data b.data c.data h1 h2

theorem contLe_total (a b : Container) : contLe a b = true ∨ contLe b a = true := by
  unfold contLe
  by_cases h : a.running = b.running
  · rw [if_pos h, if_pos h.symm]
    exact strLe_total a.name b.name
  · rw [if_neg h, if_neg (fun e => h e.symm)]
    revert h
    cases a.running <;> cases b.running <;> simp

theorem contLe_trans (a b c : Container)
    (h1 : contLe a b = true) (h2 : contLe b c = true) : contLe a c = true := by
  cases ha : a.running <;> cases hb : b.running <;> cases hc : c.running <;>
    simp only [contLe, ha, hb, hc, if_true, if_false, reduceIte] at h1 h2 ⊢ <;>
    first
      | rfl
      | exact strLe_trans h1 h2
      | simp_all

instance : IsTotal Container contRel := ⟨contLe_total⟩

instance : IsTrans Container contRel := ⟨contLe_trans⟩

theorem contRel_imp_contOrder {a b : Container} (h : contRel a b) : ContOrder a b := by
  unfold contRel contLe at h
  by_cases he : a.running = b.running
  · rw [if_pos he] at h
    exact Or.inl ⟨he, h⟩
  · rw [if_neg he] at h
    refine Or.inr ⟨h, ?_⟩
    cases hb : b.running
    · rfl
    · exact absurd (h.trans hb.symm) he

theorem sortContainers_sorted (l : List Container) :
    List.Sorted ContOrder (sortContainers l) :=
  (List.sorted_insertionSort contRel l).imp fun h => contRel_imp_contOrder h

/-- C1: the Container Status Adapter does NOT order stopped containers
first: the sort key `(not running, name)` ascending puts running
containers first (`False < True`), so on the input
`[("b","Up 2 days"),("a","Exited (1)"),("c","Up 5 hours")]` the returned
sequence is b(UP), c(UP), a(DOWN) — not a(DOWN), b(UP), c(UP) as claimed. -/
theorem c1_sort_counterexample :
    get_docker_containers
        (Except.ok [("b", "Up 2 days"), ("a", "Exited (1)"), ("c", "Up 5 hours")]) =
      [{ name := "b", status := "UP", running := true },
       { name := "c", status := "UP", running := true },
       { name := "a", status := "DOWN", running := false }] ∧
    get_docker_containers
        (Except.ok [("b", "Up 2 days"), ("a", "Exited (1)"), ("c", "Up 5 hours")]) ≠
      [{ name := "a", status := "DOWN", running := false },
       { name := "b", status := "UP", running := true },
       { name := "c", status := "UP", running := true }] := by
  constructor
  · decide
  · decide

/-- C1 (amended): for every list of parsed entries the adapter returns the
sequence ordered by the key `(not running, name)` ascending — running
containers first, then by name ascending within each group — and on the
input `[("b","Up 2 days"),("a","Exited (1)"),("c","Up 5 hours")]` the
returned sequence is b(UP), c(UP), a(DOWN). -/
theorem c1_sort_order :
    (∀ entries : List (String × String),
        List.Sorted ContOrder (get_docker_containers (Except.ok entries))) ∧
    get_docker_containers
        (Except.ok [("b", "Up 2 days"), ("a", "Exited (1)"), ("c", "Up 5 hours")]) =
      [{ name := "b", status := "UP", running := true },
       { name := "c", status := "UP", running := true },
       { name := "a", status := "DOWN", running := false }] := by
  constructor
  · intro entries
    exact sortContainers_sorted (entries.map containerOfEntry)
  · decide

/-- C9: the synthetic entry returned on invocation failure carries the
exception message in its `status` field, which is neither `UP` nor
`DOWN`; so not every element's status is one of the two enum values. -/
theorem c9_status_counterexample :
    get_docker_containers (Except.error "docker not found") =
      [{ name := "docker error", status := "docker not found", running := false }] ∧
    ¬("docker not found" = "UP" ∨ "docker not found" = "DOWN") := by
  constructor
  · decide
  · decide

/-- C9 (amended): every element returned on a successful invocation has
status `UP` or `DOWN`; on invocation failure the single synthetic entry
carries the exception message in `status` with `running = false`. -/
theorem c9_status_values :
    (∀ (entries : List (String × String)) (c : Container),
        c ∈ get_docker_containers (Except.ok entries) →
        c.status = "UP" ∨ c.status = "DOWN") ∧
    (∀ e : String,
        get_docker_containers (Except.error e) =
          [{ name := "docker error", status := e, running := false }]) := by
  constructor
  · intro entries c hc
    unfold get_docker_containers sortContainers at hc
    have hmem := (List.perm_insertionSort contRel (entries.map containerOfEntry)).mem_iff.mp hc
    rcases List.mem_map.mp hmem with ⟨p, _, hp⟩
    rw [← hp]
    unfold containerOfEntry
    cases statusRunning p.2
    · right; rfl
    · left; rfl
  · intro e
    rfl

/-- C9 witness: the amended theorem applied at the single running
container parsed from `("web", "Up 3 days")`. -/
theorem c9_status_values_witness :
    ({ name := "web", status := "UP", running := true } : Container).status = "UP" ∨
    ({ name := "web", status := "UP", running := true } : Container).status = "DOWN" :=
  c9_status_values.1 [("web", "Up 3 days")]
    { name := "web", status := "UP", running := true } (by decide)

/-- C4: whenever the `requests` library is present and the login step
fails (transport error, non-2xx via `raise_for_status`, or missing
session token in the response body), `get_pihole_stats` returns exactly
the one-key mapping `error ↦ message` and attempts zero logout DELETE
requests. -/
theorem c4_login_failure :
    ∀ (env : PiholeEnv) (m : String),
      env.hasRequests = true →
      loginFailMsg env.login = some m →
      get_pihole_stats env = ([("error", JVal.jstr m)], 0) := by
  intro env m hreq hfail
  unfold get_pihole_stats
  rw [if_neg (by simp [hreq])]
  cases hl : env.login <;> rw [hl] at hfail <;> simp [loginFailMsg] at hfail <;>
    simp [hfail]

/-- C4 witness: the theorem applied to an environment whose login POST
raises a transport error. -/
theorem c4_login_failure_witness :
    get_pihole_stats envLoginFail = ([("error", JVal.jstr "connection refused")], 0) :=
  c4_login_failure envLoginFail "connection refused" rfl rfl

/-- C5: login can succeed (the extraction `r.json()["session"]["sid"]`
returns normally) with the empty string as session id; `if sid:` is then
false, so the `finally` block attempts no logout DELETE — not exactly one
as claimed. -/
theorem c5_logout_counterexample :
    envEmptySid.login = LoginOutcome.ok "" ∧
    (get_pihole_stats envEmptySid).2 = 0 ∧ (0 : Nat) ≠ 1 := by
  refine ⟨rfl, ?_, by decide⟩
  decide

/-- C5 (amended): whenever login succeeds with a NON-EMPTY session token,
the logout DELETE is attempted exactly once on every exit path (summary
fetch success or failure alike); when the obtained token is the empty
string it is attempted zero times; and the outcome of the logout request
never changes the returned mapping. -/
theorem c5_logout_discipline :
    ∀ (env : PiholeEnv) (sid : String),
      env.hasRequests = true →
      env.login = LoginOutcome.ok sid →
      (sid ≠ "" → (get_pihole_stats env).2 = 1) ∧
      (sid = "" → (get_pihole_stats env).2 = 0) ∧
      (∀ lo : Except String Unit,
        (get_pihole_stats (withLogout env lo)).1 = (get_pihole_stats env).1) := by
  intro env sid hreq hlogin
  refine ⟨?_, ?_, ?_⟩
  · intro hsid
    unfold get_pihole_stats
    rw [if_neg (by simp [hreq]), hlogin]
    cases env.summary <;> simp [hsid]
  · intro hsid
    unfold get_pihole_stats
    rw [if_neg (by simp [hreq]), hlogin]
    cases env.summary <;> simp [hsid]
  · intro lo
    unfold get_pihole_stats withLogout
    rfl

/-- C5 witness: the amended theorem applied to an environment where login
succeeds with token "S" and the summary fetch fails; the logout DELETE is
attempted exactly once. -/
theorem c5_logout_discipline_witness :
    (get_pihole_stats envFetchFail).2 = 1 :=
  (c5_logout_discipline envFetchFail "S" rfl rfl).1 (by decide)

/-- C10: when login and summary fetch both return normally, the adapter
never returns an error mapping: the result has exactly the seven counter
keys in order, no `error` key, and each missing body field contributes
the default `0` (the rounded percentage contributing `0.0`). -/
theorem c10_missing_fields_default :
    ∀ (env : PiholeEnv) (sid : String) (body : SummaryBody),
      env.hasRequests = true →
      env.login = LoginOutcome.ok sid →
      env.summary = Except.ok body →
      (get_pihole_stats env).1.map Prod.fst =
        ["queries_today", "ads_blocked_today", "ads_percentage_today",
         "domains_being_blocked", "queries_forwarded", "queries_cached",
         "unique_clients"] ∧
      ((get_pihole_stats env).1.lookup "error" = none) ∧
      (body.queries_total = none →
        (get_pihole_stats env).1.lookup "queries_today" = some (JVal.jint 0)) ∧
      (body.queries_blocked = none →
        (get_pihole_stats env).1.lookup "ads_blocked_today" = some (JVal.jint 0)) ∧
      (body.queries_percent_blocked = none →
        (get_pihole_stats env).1.lookup "ads_percentage_today" = some (JVal.jnum (round2 0))) ∧
      (body.gravity_domains_being_blocked = none →
        (get_pihole_stats env).1.lookup "domains_being_blocked" = some (JVal.jint 0)) ∧
      (body.queries_forwarded = none →
        (get_pihole_stats env).1.lookup "queries_forwarded" = some (JVal.jint 0)) ∧
      (body.queries_cached = none →
        (get_pihole_stats env).1.lookup "queries_cached" = some (JVal.jint 0)) ∧
      (body.clients_active = none →
        (get_pihole_stats env).1.lookup "unique_clients" = some (JVal.jint 0)) := by
  intro env sid body hreq hlogin hsum
  have hres : (get_pihole_stats env).1 = statsOf body := by
    unfold get_pihole_stats
    rw [if_neg (by simp [hreq]), hlogin, hsum]
  rw [hres]
  refine ⟨rfl, rfl, ?_, ?_, ?_, ?_, ?_, ?_, ?_⟩ <;>
    intro hf <;> simp [statsOf, hf, List.lookup]

/-- C10 witness: the theorem applied to a successful session whose summary
body is entirely empty. -/
theorem c10_missing_fields_default_witness :
    (get_pihole_stats envGoodLogin).1.lookup "queries_today" = some (JVal.jint 0) :=
  ((c10_missing_fields_default envGoodLogin "S" emptyBody rfl rfl rfl).2.2.1) rfl

/-- C2: when the `requests` library is absent the pihole adapter returns
the empty mapping, so the published snapshot's `pihole` value is an empty
object with no `error` field — the snapshot still has the four top-level
keys, but a failed source's value can be empty. -/
theorem c2_snapshot_counterexample :
    mainSnapshot "3:45 pm" envNoRequests envFallbackAllFail (Except.ok []) =
      Except.ok
        [("updated", TopVal.str "3:45 pm"),
         ("pihole", TopVal.obj []),
         ("server", TopVal.obj []),
         ("containers", TopVal.arr [])] ∧
    envNoRequests.hasRequests = false ∧
    (([] : List (String × JVal)).lookup "error" = none) :=
  ⟨rfl, rfl, rfl⟩

/-- C2 (amended): every published snapshot has exactly the four top-level
keys `updated`, `pihole`, `server`, `containers`; the `pihole` value is
the one-key object `error ↦ message` when the adapter caught a login
exception, but the empty object (no `error` field) when the HTTP library
is absent. -/
theorem c2_snapshot_keys :
    ∀ (updated : String) (penv : PiholeEnv) (senv : ServerEnv) (denv : DockerEnv)
      (kvs : List (String × TopVal)),
      mainSnapshot updated penv senv denv = Except.ok kvs →
      kvs.map Prod.fst = ["updated", "pihole", "server", "containers"] ∧
      (penv.hasRequests = false → kvs.lookup "pihole" = some (TopVal.obj [])) ∧
      (∀ m : String, penv.hasRequests = true → loginFailMsg penv.login = some m →
        kvs.lookup "pihole" = some (TopVal.obj [("error", JVal.jstr m)])) := by
  intro updated penv senv denv kvs h
  unfold mainSnapshot at h
  cases hs : get_server_stats senv with
  | error e => rw [hs] at h; exact absurd h (by simp)
  | ok server =>
    rw [hs] at h
    have hkvs := Except.ok.inj h
    subst hkvs
    refine ⟨rfl, ?_, ?_⟩
    · intro hfalse
      have hp : get_pihole_stats penv = ([], 0) := by
        unfold get_pihole_stats
        rw [if_pos hfalse]
      simp [List.lookup, hp]
    · intro m htrue hfail
      have hp : (get_pihole_stats penv).1 = [("error", JVal.jstr m)] := by
        unfold get_pihole_stats
        rw [if_neg (by simp [htrue])]
        cases hl : penv.login <;> rw [hl] at hfail <;> simp [loginFailMsg] at hfail <;>
          simp [hfail]
      simp [List.lookup, hp]

/-- C2 witness: the amended theorem applied to a tick with the HTTP
library absent, all fallback reads failing, and no containers. -/
theorem c2_snapshot_keys_witness :
    ([("updated", TopVal.str "t"), ("pihole", TopVal.obj []),
      ("server", TopVal.obj []), ("containers", TopVal.arr [])].map Prod.fst =
        ["updated", "pihole", "server", "containers"]) ∧
    (envNoRequests.hasRequests = false →
      List.lookup "pihole"
        [("updated", TopVal.str "t"), ("pihole", TopVal.obj []),
         ("server", TopVal.obj []), ("containers", TopVal.arr [])] =
        some (TopVal.obj [])) ∧
    (∀ m : String, envNoRequests.hasRequests = true →
      loginFailMsg envNoRequests.login = some m →
      List.lookup "pihole"
        [("updated", TopVal.str "t"), ("pihole", TopVal.obj []),
         ("server", TopVal.obj []), ("containers", TopVal.arr [])] =
        some (TopVal.obj [("error", JVal.jstr m)])) :=
  c2_snapshot_keys "t" envNoRequests envFallbackAllFail (Except.ok []) _ rfl

/-- C3: the rich path of `get_server_stats` (psutil available) is not
wrapped in any `try`, so an exception from the first psutil call
propagates out of the adapter, and `main` then produces no snapshot. -/
theorem c3_raise_counterexample :
    get_server_stats envCpuFail = Except.error "boom" ∧
    mainSnapshot "t" envGoodLogin envCpuFail (Except.ok []) = Except.error "boom" :=
  ⟨rfl, rfl⟩

/-- C3 (amended): the pihole and container adapters return a value for
every external behaviour (their catch-all handlers are embedded in their
types); the OS-metrics adapter returns normally whenever the metrics
library is unavailable, but when it is available an exception of the
CPU-percent call propagates out of the adapter. -/
theorem c3_adapter_totality :
    (∀ senv : ServerEnv, senv.hasPsutil = false →
      ∃ v, get_server_stats senv = Except.ok v) ∧
    (∀ (senv : ServerEnv) (m : String), senv.hasPsutil = true →
      senv.cpu_percent = Except.error m →
      get_server_stats senv = Except.error m) := by
  constructor
  · intro senv h
    unfold get_server_stats
    rw [if_neg (by simp [h])]
    exact ⟨_, rfl⟩
  · intro senv m h hc
    unfold get_server_stats
    rw [if_pos (by simp [h]), hc]
    rfl

/-- C3 witness: the amended theorem applied to the fallback environment
with every pseudo-file read failing. -/
theorem c3_adapter_totality_witness :
    ∃ v, get_server_stats envFallbackAllFail = Except.ok v :=
  c3_adapter_totality.1 envFallbackAllFail rfl

/-- C6: the publisher opens the output path with mode "w" (truncating it
in place) and writes the document directly, so a concurrent reader can
observe the empty (truncated) intermediate state, which is neither the
old nor the new complete document; no temporary file or atomic rename is
involved. -/
theorem c6_truncated_state_observable :
    writeTrace "old snapshot" (publishOps "new snapshot") =
      ["old snapshot", "", "new snapshot"] ∧
    "" ∈ writeTrace "old snapshot" (publishOps "new snapshot") ∧
    ("" : String) ≠ "old snapshot" ∧ ("" : String) ≠ "new snapshot" := by
  refine ⟨?_, ?_, ?_, ?_⟩ <;> decide

/-- C7: for every uptime in whole seconds, the rich path formats
`"{days}d {hours}h"` when `days ≥ 1` and `"{hours}h {minutes}m"`
otherwise, while the fallback path always formats `"{days}d {hours}h"`;
90000 s gives `"1d 1h"` on both paths, 3000 s gives `"0h 50m"` (rich)
and `"0d 0h"` (fallback). -/
theorem c7_uptime_formats :
    (∀ s : Nat,
      (1 ≤ s / 86400 →
        uptimeStrRich s =
          toString (s / 86400) ++ "d " ++ toString (s % 86400 / 3600) ++ "h") ∧
      (s / 86400 = 0 →
        uptimeStrRich s =
          toString (s % 86400 / 3600) ++ "h " ++ toString (s % 3600 / 60) ++ "m") ∧
      uptimeStrFallback s =
        toString (s / 86400) ++ "d " ++ toString (s % 86400 / 3600) ++ "h") ∧
    uptimeStrRich 90000 = "1d 1h" ∧
    uptimeStrFallback 90000 = "1d 1h" ∧
    uptimeStrRich 3000 = "0h 50m" ∧
    uptimeStrFallback 3000 = "0d 0h" := by
  refine ⟨?_, by decide, by decide, by decide, by decide⟩
  intro s
  refine ⟨?_, ?_, rfl⟩
  · intro h
    simp [uptimeStrRich, show 0 < s / 86400 from h]
  · intro h
    simp [uptimeStrRich, h]

/-- C7 witness: the theorem applied at 90000 seconds (days = 1). -/
theorem c7_uptime_formats_witness :
    uptimeStrRich 90000 =
      toString (90000 / 86400) ++ "d " ++ toString (90000 % 86400 / 3600) ++ "h" :=
  (c7_uptime_formats.1 90000).1 (by decide)

theorem temp_bound_iff (m : Int) :
    (10 < (m : ℚ) / 1000 ∧ (m : ℚ) / 1000 < 120) ↔ (10000 < m ∧ m < 120000) := by
  rw [lt_div_iff₀ (by norm_num : (0 : ℚ) < 1000), div_lt_iff₀ (by norm_num : (0 : ℚ) < 1000)]
  constructor
  · rintro ⟨h1, h2⟩
    constructor
    · exact_mod_cast (by linarith : (10000 : ℚ) < m)
    · exact_mod_cast (by linarith : (m : ℚ) < 120000)
  · rintro ⟨h1, h2⟩
    have h1' : (10000 : ℚ) < m := by exact_mod_cast h1
    have h2' : (m : ℚ) < 120000 := by exact_mod_cast h2
    constructor <;> linarith

theorem qualifies_iff {zones : Nat → Option Int} {i : Nat} {m : Int}
    (h : zones i = some m) : Qualifies zones i ↔ 10000 < m ∧ m < 120000 := by
  unfold Qualifies
  rw [h]
  constructor
  · rintro ⟨m', hm', h1, h2⟩
    obtain rfl : m = m' := Option.some.inj hm'
    exact (temp_bound_iff m).mp ⟨h1, h2⟩
  · intro hb
    exact ⟨m, rfl, (temp_bound_iff m).mpr hb⟩

theorem probeAux_no_hit (zones : Nat → Option Int) :
    ∀ fuel k : Nat, (∀ j, k ≤ j → j < k + fuel → ¬ Qualifies zones j) →
      probeAux zones k fuel = (none, List.range' k fuel) := by
  intro fuel
  induction fuel with
  | zero => intro k _; rfl
  | succ n ih =>
    intro k h
    have hk : ¬ Qualifies zones k := h k le_rfl (by omega)
    have hih := ih (k + 1) (fun j hj1 hj2 => h j (by omega) (by omega))
    cases hz : zones k with
    | none =>
      simp only [probeAux, hz, hih]
      rw [List.range'_succ]
    | some m =>
      have hcond : ¬(10 < (m : ℚ) / 1000 ∧ (m : ℚ) / 1000 < 120) := fun hc =>
        hk ⟨m, hz, hc⟩
      simp only [probeAux, hz]
      rw [if_neg hcond]
      simp only [hih]
      rw [List.range'_succ]

theorem probeAux_hit (zones : Nat → Option Int) (m : Int) :
    ∀ fuel k i : Nat, k ≤ i → i < k + fuel →
      zones i = some m →
      10 < (m : ℚ) / 1000 → (m : ℚ) / 1000 < 120 →
      (∀ j, k ≤ j → j < i → ¬ Qualifies zones j) →
      probeAux zones k fuel = (some ((m : ℚ) / 1000), List.range' k (i - k + 1)) := by
  intro fuel
  induction fuel with
  | zero => intro k i h1 h2 _ _ _ _; exact absurd h2 (by omega)
  | succ n ih =>
    intro k i hki hif hz hc1 hc2 hno
    rcases Nat.eq_or_lt_of_le hki with rfl | hlt
    · simp only [probeAux, hz]
      rw [if_pos ⟨hc1, hc2⟩]
      have h1 : k - k + 1 = 1 := by omega
      rw [h1, List.range'_one]
    · have hih :=
        ih (k + 1) i (by omega) (by omega) hz hc1 hc2
          (fun j hj1 hj2 => hno j (by omega) hj2)
      have hkq : ¬ Qualifies zones k := hno k le_rfl hlt
      have harith : i - k + 1 = (i - (k + 1) + 1) + 1 := by omega
      cases hz' : zones k with
      | none =>
        simp only [probeAux, hz', hih]
        rw [harith]
        conv_rhs => rw [List.range'_succ]
      | some m' =>
        have hcond : ¬(10 < (m' : ℚ) / 1000 ∧ (m' : ℚ) / 1000 < 120) := fun hc =>
          hkq ⟨m', hz', hc⟩
        simp only [probeAux, hz']
        rw [if_neg hcond]
        simp only [hih]
        rw [harith]
        conv_rhs => rw [List.range'_succ]

theorem roundHalfEven_intCast (n : ℤ) : roundHalfEven (n : ℚ) = n := by
  unfold roundHalfEven
  rw [Int.floor_intCast]
  rw [if_pos (by norm_num : (n : ℚ) - n < 1 / 2)]

theorem round1_45 : round1 45 = 45 := by
  unfold round1 pyRound
  rw [show (45 : ℚ) * 10 ^ 1 = ((450 : ℤ) : ℚ) by norm_num, roundHalfEven_intCast]
  norm_num

/-- C8: the thermal probe examines zones 0, 1, ... and selects the first
reading strictly between 10 and 120 degrees, stopping right after the
hit; if no zone among 0..9 qualifies the `temp_c` key is omitted; on
readings 5000, 45000, 999999 milli-degrees it selects zone 1 (45.0) and
never probes zone 2. -/
theorem c8_temperature_probe :
    (∀ (zones : Nat → Option Int) (i : Nat) (m : Int),
        i < 10 → zones i = some m →
        10 < (m : ℚ) / 1000 → (m : ℚ) / 1000 < 120 →
        (∀ j, j < i → ¬ Qualifies zones j) →
        (probeZones zones).1 = some ((m : ℚ) / 1000) ∧
        (probeZones zones).2 = List.range (i + 1)) ∧
    (∀ zones : Nat → Option Int,
        (∀ i, i < 10 → ¬ Qualifies zones i) →
        (probeZones zones).1 = none ∧ tempPart zones = []) ∧
    ((probeZones zones3).1 = some 45 ∧
     (probeZones zones3).2 = [0, 1] ∧
     (2 : Nat) ∉ (probeZones zones3).2 ∧
     tempPart zones3 = [("temp_c", JVal.jnum 45)]) := by
  refine ⟨?_, ?_, ?_⟩
  · intro zones i m hi hz h1 h2 hno
    have h :=
      probeAux_hit zones m 10 0 i (Nat.zero_le i) (by omega) hz h1 h2
        (fun j _ hj => hno j hj)
    unfold probeZones
    rw [h]
    refine ⟨rfl, ?_⟩
    rw [List.range_eq_range']
    norm_num
  · intro zones h
    have hp := probeAux_no_hit zones 10 0 (fun j _ hj => h j (by omega))
    constructor
    · unfold probeZones
      rw [hp]
    · unfold tempPart probeZones
      rw [hp]
  · have hb := (temp_bound_iff 45000).mpr (by decide)
    have h :=
      probeAux_hit zones3 45000 10 0 1 (by omega) (by omega) rfl hb.1 hb.2
        (fun j _ hj => by
          have hj0 : j = 0 := by omega
          subst hj0
          rw [qualifies_iff (show zones3 0 = some 5000 from rfl)]
          decide)
    have h45 : ((45000 : Int) : ℚ) / 1000 = 45 := by norm_num
    have hfst : (probeZones zones3).1 = some 45 := by
      unfold probeZones
      rw [h]
      exact congrArg some h45
    have hsnd : (probeZones zones3).2 = [0, 1] := by
      unfold probeZones
      rw [h]
      decide
    refine ⟨hfst, hsnd, ?_, ?_⟩
    · rw [hsnd]
      decide
    · unfold tempPart
      rw [hfst]
      show [("temp_c", JVal.jnum (round1 45))] = [("temp_c", JVal.jnum 45)]
      rw [round1_45]

/-- C8 witness: the general selection theorem applied to the concrete
zone table, hit at index 1 with reading 45000. -/
theorem c8_temperature_probe_witness :
    (probeZones zones3).1 = some (((45000 : Int) : ℚ) / 1000) ∧
    (probeZones zones3).2 = List.range (1 + 1) :=
  c8_temperature_probe.1 zones3 1 45000 (by decide) rfl
    ((temp_bound_iff 45000).mpr (by decide)).1
    ((temp_bound_iff 45000).mpr (by decide)).2
    (fun j hj => by
      have hj0 : j = 0 := by omega
      subst hj0
      rw [qualifies_iff (show zones3 0 = some 5000 from rfl)]
      decide)
